import Mathlib

/-!
Verification of the error-aggregation module (`src/error.rs`) of the
`proc_macro_utils` crate.

Shallow embedding notes:
* `proc_macro2::Span` is opaque to this module; it is embedded as `Nat`.
* `proc_macro2::TokenStream` is embedded as a list of tokens; extending a
  stream (`TokenStream::extend`) is list append, `TokenStream::is_empty`
  is `List.isEmpty`, `TokenStream::new` is `[]`.
* `syn::Error` holds a start and an end span plus a message; its
  `to_compile_error` renders the `::core::compile_error ! { "msg" }`
  invocation as a token stream (start span on the path and bang, end span
  on the brace group), which is what `From<syn::Error> for Error` stores.
* The Rust methods mutate `&mut self`; they are embedded by explicit state
  passing: a method returning `&mut Self` returns the new builder state,
  and `build`/`build_err`/`ok_or_build` return a pair of the produced
  value and the builder state left behind (`std::mem::take` leaves the
  empty stream behind).
* `Result<T> = std::result::Result<T, Error>` is embedded as
  `Except Error`.
-/

/-- A token of a `proc_macro2::TokenStream`: identifier, punctuation,
delimited group or literal, each carrying its span (embedded as `Nat`). -/
inductive Token where
  | ident (sp : Nat) (name : String)
  | punct (sp : Nat) (ch : Char)
  | group (sp : Nat) (inner : List Token)
  | lit (sp : Nat) (value : String)


/-- `proc_macro2::TokenStream`, embedded as a list of tokens. -/
abbrev TokenStream := List Token

/-- The span of a token tree (`TokenTree::span`). -/
def Token.span : Token → Nat
  | .ident sp _ => sp
  | .punct sp _ => sp
  | .group sp _ => sp
  | .lit sp _ => sp

/-- Span used by `Span::call_site()`, opaque; embedded as `0`. -/
def spanCallSite : Nat := 0

/-- `syn::Error`: a message anchored at a start and an end span. -/
structure SynError where
  start : Nat
  stop : Nat
  message : String


/-- `syn::Error::new(span, message)`: both spans are `span`. -/
def SynError.new (sp : Nat) (message : String) : SynError :=
  ⟨sp, sp, message⟩

/-- `syn::Error::new_spanned(tokens, message)`: start span from the first
token, end span from the last token, call-site when the stream is empty. -/
def SynError.new_spanned (tokens : TokenStream) (message : String) : SynError :=
  let start := (tokens.head?.map Token.span).getD spanCallSite
  let stop := (tokens.getLast?.map Token.span).getD start
  ⟨start, stop, message⟩

/-- `syn::Error::to_compile_error`: renders
`::core::compile_error ! { "message" }` as a token stream. -/
def SynError.to_compile_error (e : SynError) : TokenStream :=
  [Token.punct e.start ':', Token.punct e.start ':',
   Token.ident e.start "core",
   Token.punct e.start ':', Token.punct e.start ':',
   Token.ident e.start "compile_error",
   Token.punct e.start '!',
   Token.group e.stop [Token.lit e.stop e.message]]

/-- `Error` from `src/error.rs`: a newtype over `TokenStream`. -/
structure Error where
  stream : TokenStream


/-- `impl From<syn::Error> for Error`: stores `err.to_compile_error()`. -/
def Error.fromSynError (err : SynError) : Error :=
  ⟨err.to_compile_error⟩

/-- `impl From<TokenStream> for Error`. -/
def Error.fromTokenStream (err : TokenStream) : Error :=
  ⟨err⟩

/-- `impl From<Error> for TokenStream`. -/
def Error.toTokenStream (err : Error) : TokenStream :=
  err.stream

/-- `Error::new(span, message)`. -/
def Error.new (sp : Nat) (message : String) : Error :=
  Error.fromSynError (SynError.new sp message)

/-- `Error::new_spanned(tokens, message)`. -/
def Error.new_spanned (tokens : TokenStream) (message : String) : Error :=
  Error.fromSynError (SynError.new_spanned tokens message)

/-- `ErrorBuilder` from `src/error.rs`: a newtype over `TokenStream`. -/
structure ErrorBuilder where
  stream : TokenStream


/-- `ErrorBuilder::new()`. -/
def ErrorBuilder.new : ErrorBuilder :=
  ⟨[]⟩

/-- `Error::builder()`. -/
def Error.builder : ErrorBuilder :=
  ErrorBuilder.new

/-- `ErrorBuilder::with_error(error)`: extends the accumulated stream with
the error's token stream and returns the builder. -/
def ErrorBuilder.with_error (b : ErrorBuilder) (error : Error) : ErrorBuilder :=
  ⟨b.stream ++ error.toTokenStream⟩

/-- `ErrorBuilder::with(span, message)` (named `with_` because `with` is a
Lean keyword). -/
def ErrorBuilder.with_ (b : ErrorBuilder) (sp : Nat) (message : String) : ErrorBuilder :=
  b.with_error (Error.new sp message)

/-- `ErrorBuilder::with_spanned(tokens, message)`. -/
def ErrorBuilder.with_spanned (b : ErrorBuilder) (tokens : TokenStream)
    (message : String) : ErrorBuilder :=
  b.with_error (Error.new_spanned tokens message)

/-- `ErrorBuilder::with_spans(tokens, message)`: folds `with_spanned` over
the iterator's items. -/
def ErrorBuilder.with_spans (b : ErrorBuilder) (tokensList : List TokenStream)
    (message : String) : ErrorBuilder :=
  tokensList.foldl (fun builder token => builder.with_spanned token message) b

/-- `ErrorBuilder::push(error)`. -/
def ErrorBuilder.push (b : ErrorBuilder) (error : Error) : ErrorBuilder :=
  b.with_error error

/-- `ErrorBuilder::is_empty()`. -/
def ErrorBuilder.is_empty (b : ErrorBuilder) : Bool :=
  b.stream.isEmpty

/-- `ErrorBuilder::build()`: `Error(std::mem::take(&mut self.0))` — returns
the accumulated error and the builder state left behind (empty). -/
def ErrorBuilder.build (b : ErrorBuilder) : Error × ErrorBuilder :=
  (⟨b.stream⟩, ⟨[]⟩)

/-- `ErrorBuilder::build_err()`: `Err(self.build())`. -/
def ErrorBuilder.build_err (b : ErrorBuilder) : Except Error Unit × ErrorBuilder :=
  ((b.build).1 |> Except.error, (b.build).2)

/-- `ErrorBuilder::ok_or_build()`. -/
def ErrorBuilder.ok_or_build (b : ErrorBuilder) : Except Error Unit × ErrorBuilder :=
  if b.is_empty then (Except.ok (), b) else b.build_err

/-- `Error::new_from_spans(tokens, message)`:
`Self::builder().with_spans(tokens, message).build()`. -/
def Error.new_from_spans (tokensList : List TokenStream) (message : String) : Error :=
  ((Error.builder.with_spans tokensList message).build).1

/-- One push operation on an `ErrorBuilder`, mixing the single-span forms
`with` / `with_spanned` and the multi-span form `with_spans`. -/
inductive PushOp where
  | withSpan (sp : Nat) (message : String)
  | withSpanned (tokens : TokenStream) (message : String)
  | withSpans (tokensList : List TokenStream) (message : String)


/-- Apply one push operation to a builder. -/
def applyPush (b : ErrorBuilder) : PushOp → ErrorBuilder
  | .withSpan sp m => b.with_ sp m
  | .withSpanned t m => b.with_spanned t m
  | .withSpans ts m => b.with_spans ts m

/-- Apply a sequence of push operations, in order. -/
def applyPushes (b : ErrorBuilder) (ps : List PushOp) : ErrorBuilder :=
  ps.foldl applyPush b

/-- Specification-side view of a push, stated from the spec's words rather
than the source: the list of token streams of the individual diagnostics a
push contributes — one diagnostic for a single-span push, one diagnostic
per iterator item, in iterator order, for `with_spans`. -/
def specDiagnosticsOf : PushOp → List TokenStream
  | .withSpan sp m => [(Error.new sp m).toTokenStream]
  | .withSpanned t m => [(Error.new_spanned t m).toTokenStream]
  | .withSpans ts m => ts.map (fun t => (Error.new_spanned t m).toTokenStream)

theorem with_spans_stream (ts : List TokenStream) (m : String) :
    ∀ b : ErrorBuilder, (b.with_spans ts m).stream
      = b.stream ++ (ts.map (fun t => (Error.new_spanned t m).toTokenStream)).flatten := by
  induction ts with
  | nil => intro b; simp [ErrorBuilder.with_spans]
  | cons t rest ih =>
      intro b
      calc (b.with_spans (t :: rest) m).stream
          = ((b.with_spanned t m).with_spans rest m).stream := rfl
        _ = (b.with_spanned t m).stream
              ++ (rest.map (fun t => (Error.new_spanned t m).toTokenStream)).flatten :=
            ih (b.with_spanned t m)
        _ = b.stream
              ++ ((t :: rest).map (fun t => (Error.new_spanned t m).toTokenStream)).flatten := by
            simp [ErrorBuilder.with_spanned, ErrorBuilder.with_error, Error.toTokenStream]

theorem applyPush_stream (b : ErrorBuilder) (p : PushOp) :
    (applyPush b p).stream = b.stream ++ (specDiagnosticsOf p).flatten := by
  cases p with
  | withSpan sp m =>
      simp [applyPush, specDiagnosticsOf, ErrorBuilder.with_, ErrorBuilder.with_error]
  | withSpanned t m =>
      simp [applyPush, specDiagnosticsOf, ErrorBuilder.with_spanned, ErrorBuilder.with_error]
  | withSpans ts m =>
      simp [applyPush, specDiagnosticsOf, with_spans_stream]

theorem applyPushes_stream (ps : List PushOp) :
    ∀ b : ErrorBuilder, (applyPushes b ps).stream
      = b.stream ++ ((ps.map specDiagnosticsOf).map List.flatten).flatten := by
  induction ps with
  | nil => intro b; simp [applyPushes]
  | cons p rest ih =>
      intro b
      calc (applyPushes b (p :: rest)).stream
          = (applyPushes (applyPush b p) rest).stream := rfl
        _ = (applyPush b p).stream
              ++ ((rest.map specDiagnosticsOf).map List.flatten).flatten := ih (applyPush b p)
        _ = b.stream
              ++ (((p :: rest).map specDiagnosticsOf).map List.flatten).flatten := by
            simp [applyPush_stream]

/-- Claim C1: for every sequence of pushes (mixing `with`, `with_spanned`
and `with_spans`), the token stream produced by `build()` is exactly the
concatenation, in push order, of the token streams of the individual
pushed diagnostics, with `with_spans` expanding into one diagnostic per
iterator item in iterator order — nothing dropped, reordered, merged or
duplicated. -/
theorem c1_build_concatenates_pushes (ps : List PushOp) :
    ((applyPushes ErrorBuilder.new ps).build).1.toTokenStream
      = ((ps.map specDiagnosticsOf).flatten).flatten := by
  simp [ErrorBuilder.build, Error.toTokenStream, applyPushes_stream, ErrorBuilder.new,
    List.flatten_flatten]

theorem ErrorBuilder.ext_stream {a b : ErrorBuilder} (h : a.stream = b.stream) : a = b := by
  cases a; cases b; cases h; rfl

/-- Claim C2 (corrected): `Error::new_from_spans` on the empty iterator does
not signal a fatal or unreachable contract violation — it returns normally,
yielding the error wrapping the empty token stream. -/
theorem c2_counterexample : Error.new_from_spans [] "m" = Error.fromTokenStream [] := rfl

/-- Claim C2 (amended): `Error::new_from_spans` is total — for every
iterator, empty or not, it returns normally with the concatenation of the
per-item diagnostics; on the empty iterator the result wraps the empty
token stream. The core raises no failure on its own initiative. -/
theorem c2_new_from_spans_total (tss : List TokenStream) (m : String) :
    Error.new_from_spans tss m
      = Error.fromTokenStream
          ((tss.map (fun t => (Error.new_spanned t m).toTokenStream)).flatten)
      ∧ Error.new_from_spans [] m = Error.fromTokenStream [] := by
  constructor
  · simp [Error.new_from_spans, Error.builder, ErrorBuilder.build, Error.fromTokenStream,
      with_spans_stream, ErrorBuilder.new]
  · rfl

/-- Claim C3: after `build()` the builder is empty again — it equals a
freshly created builder, and any subsequent sequence of pushes followed by
`build()` yields exactly what it would yield on a fresh builder, so no
token consumed by the earlier `build()` reappears. -/
theorem c3_build_resets (b : ErrorBuilder) (ps : List PushOp) :
    ((b.build).2).is_empty = true
      ∧ (b.build).2 = ErrorBuilder.new
      ∧ ((applyPushes (b.build).2 ps).build).1 = ((applyPushes ErrorBuilder.new ps).build).1 :=
  ⟨rfl, rfl, rfl⟩

/-- Claim C4: `ok_or_build()` returns `Ok(())` iff the builder is empty at
the call, and otherwise returns `Err` wrapping exactly the error `build()`
would have produced from the same state (leaving the same state behind). -/
theorem c4_ok_or_build (b : ErrorBuilder) :
    ((b.ok_or_build).1 = Except.ok () ↔ b.is_empty = true)
      ∧ b.ok_or_build
          = if b.is_empty then (Except.ok (), b)
            else (Except.error (b.build).1, (b.build).2) := by
  unfold ErrorBuilder.ok_or_build ErrorBuilder.build_err
  by_cases h : b.is_empty
  · simp [h]
  · simp [h]

/-- Claim C5: a freshly created builder (`Error::builder()` /
`ErrorBuilder::new()`) is empty, and `ok_or_build()` on it returns success
without producing any diagnostic content. -/
theorem c5_fresh_builder_empty :
    (Error.builder).is_empty = true
      ∧ (Error.builder).ok_or_build = (Except.ok (), ErrorBuilder.new) :=
  ⟨rfl, rfl⟩

/-- Claim C6: pushing the multi-span diagnostic built from `[t1, t2]` with
message `m` is the same as pushing the single-span diagnostic for `t1` then
the one for `t2`; in general pushing `new_from_spans ts m` once equals the
in-order sequence of single-span pushes `with_spans` performs. -/
theorem c6_multi_matches_singles (b : ErrorBuilder) (t1 t2 : TokenStream) (m : String) :
    b.push (Error.new_from_spans [t1, t2] m) = (b.with_spanned t1 m).with_spanned t2 m
      ∧ ∀ ts : List TokenStream, b.push (Error.new_from_spans ts m) = b.with_spans ts m := by
  have hgen : ∀ ts : List TokenStream,
      b.push (Error.new_from_spans ts m) = b.with_spans ts m := by
    intro ts
    apply ErrorBuilder.ext_stream
    simp [ErrorBuilder.push, ErrorBuilder.with_error, Error.toTokenStream,
      Error.new_from_spans, Error.builder, ErrorBuilder.build, with_spans_stream,
      ErrorBuilder.new]
  exact ⟨by rw [hgen [t1, t2]]; rfl, hgen⟩

/-- Claim C7 (corrected): pushing a diagnostic whose token stream is empty
onto a fresh builder does not transition it to non-empty, refuting the
unconditional empty-to-non-empty transition on the first `push`. -/
theorem c7_counterexample :
    ((ErrorBuilder.new).push (Error.fromTokenStream [])).is_empty = true := rfl

/-- Claim C7 (amended): `push` (equivalently `with_error`) never fails and
appends the diagnostic's tokens at the end of the accumulation; whenever
the pushed diagnostic's token stream is non-empty — as for every diagnostic
made by `Error::new` / `new_spanned` — the builder is non-empty afterwards,
on the first push and on every subsequent one. -/
theorem c7_push_appends (b : ErrorBuilder) (e : Error) (h : e.toTokenStream ≠ []) :
    (b.push e).stream = b.stream ++ e.toTokenStream
      ∧ b.push e = b.with_error e
      ∧ (b.push e).is_empty = false := by
  refine ⟨rfl, rfl, ?_⟩
  have hne : b.stream ++ e.toTokenStream ≠ [] := by
    intro hc
    exact h (List.append_eq_nil.mp hc).2
  simpa [ErrorBuilder.push, ErrorBuilder.with_error, ErrorBuilder.is_empty,
    List.isEmpty_iff] using hne

theorem c7_push_appends_witness :
    (Error.new 0 "m").toTokenStream ≠ []
      ∧ ((ErrorBuilder.new.push (Error.new 0 "m")).stream
            = ErrorBuilder.new.stream ++ (Error.new 0 "m").toTokenStream
          ∧ ErrorBuilder.new.push (Error.new 0 "m")
              = ErrorBuilder.new.with_error (Error.new 0 "m")
          ∧ (ErrorBuilder.new.push (Error.new 0 "m")).is_empty = false) :=
  ⟨by simp [Error.new, Error.fromSynError, SynError.new, SynError.to_compile_error,
      Error.toTokenStream],
   c7_push_appends ErrorBuilder.new (Error.new 0 "m")
     (by simp [Error.new, Error.fromSynError, SynError.new, SynError.to_compile_error,
        Error.toTokenStream])⟩

/-- Claim C8: for every builder state, including the empty one, `build_err`
returns `Err` wrapping exactly `build()`'s result and leaves the same state
behind; on the empty builder it succeeds and the wrapped error carries the
empty token stream (zero messages) rather than failing. -/
theorem c8_build_err (b : ErrorBuilder) :
    b.build_err = (Except.error (b.build).1, (b.build).2)
      ∧ (ErrorBuilder.new.build_err).1 = Except.error (Error.fromTokenStream []) :=
  ⟨rfl, rfl⟩

/-- Claim C9: the `From` conversions between `Error` and `TokenStream` are
mutually inverse — adopting a token stream as an error and converting back
is the identity, and so is the other direction. -/
theorem c9_conversion_roundtrip :
    (∀ t : TokenStream, (Error.fromTokenStream t).toTokenStream = t)
      ∧ (∀ e : Error, Error.fromTokenStream (e.toTokenStream) = e) := by
  refine ⟨fun t => rfl, fun e => ?_⟩
  cases e; rfl

/-- Claim C10: pushing a diagnostic with an empty token stream leaves the
builder unchanged; the builder is empty after a push exactly when it was
empty before and the pushed diagnostic carried no tokens, so the
empty-to-non-empty transition happens only for non-empty diagnostics. -/
theorem c10_empty_push_invisible (b : ErrorBuilder) (e : Error) :
    ((b.push e).is_empty = true ↔ (b.is_empty = true ∧ e.toTokenStream = []))
      ∧ b.push (Error.fromTokenStream []) = b := by
  constructor
  · simp [ErrorBuilder.push, ErrorBuilder.with_error, ErrorBuilder.is_empty,
      Error.toTokenStream, List.isEmpty_iff, List.append_eq_nil]
  · apply ErrorBuilder.ext_stream
    simp [ErrorBuilder.push, ErrorBuilder.with_error, Error.fromTokenStream,
      Error.toTokenStream]
